import Mathlib

/-!
Verification development for the go-openstack SDK (dihedron/go-openstack).

This file gives a shallow embedding, in Lean 4, of the parts of the Go
source that the specification claims talk about:

* `results.go` — the `Result` type, its predefined values and `NewResult`;
* `identity_old.go` — `NormaliseURL`;
* `identity_v3_token.go` — `CheckToken` / `DeleteToken` status mapping,
  `initCreateTokenOptionsScope`, `CreateTokenFromEnv`, and `Error.Where`;
* `api.go` — `PrepareRequest` / `Invoke` (authenticated-header logic);
* `client.go` — `NewClient` catalog-URL selection;
* `authenticator.go` / `types.go` — the token-refresh timer arming in
  `Login`, and the lock discipline of `Login` / `Logout` / `GetToken` /
  `GetCatalog`;
* `openstack2/service.go` (profile revisions) — `Profile.GetAllServices`.

Go strings are modelled as Lean `String`s; character-level operations
(`strings.HasSuffix`, `strings.TrimSpace`) are modelled through `String.data`
(the underlying character list).  Go `nil`-able pointers are modelled with
`Option`.  The HTTP server is modelled as a list of response status codes
that successive invocations of the generic `Invoke` consume one at a time.
-/

namespace GoOS

/-! ## String helpers (Go `strings` package operations used by the SDK) -/

/-- Model of Go `unicode.IsSpace` restricted to the characters it accepts:
space, tab, newline, vertical tab, form feed, carriage return, NEL and NBSP. -/
def goIsSpace (c : Char) : Bool :=
  c = ' ' || c = '\t' || c = '\n' || c = '\x0B' || c = '\x0C' || c = '\r' ||
  c = '\x85' || c = '\xA0'

/-- Model of Go `strings.TrimSpace`: drop the spaces at both ends of the
character list of the string. -/
def trimSpace (s : String) : String :=
  ⟨((s.data.dropWhile goIsSpace).reverse.dropWhile goIsSpace).reverse⟩

/-- Model of Go `strings.HasSuffix(url, "/")`: the last character is `'/'`. -/
def hasSlashSuffix (s : String) : Bool :=
  s.data.getLast? = some '/'

/-! ## `results.go` — the `Result` type and the status-code mapping -/

/-- The `Result` struct of `results.go`: a compact form of the result of an
HTTP API call (the `part_011` revision adds a `Data []byte` field that plays
no role in the code-to-result mapping and is omitted here). -/
structure Result where
  Code : Nat
  Status : String
  Description : String
deriving DecidableEq, Repr

/-- Predefined `Success` result (`results.go`). -/
def Success : Result := ⟨200, "OK", "Request was successful."⟩

/-- Predefined `Created` result (`results.go`). -/
def Created : Result := ⟨201, "Created", "Resource was created and is ready to use."⟩

/-- Predefined `NoContent` result (`results.go`). -/
def NoContent : Result := ⟨204, "No Content", "There is no data associated with the requested resource."⟩

/-- Predefined `BadRequest` result (`results.go`). -/
def BadRequest : Result := ⟨400, "Bad Request", "Some content in the request was invalid."⟩

/-- Predefined `Unauthorized` result (`results.go`). -/
def Unauthorized : Result := ⟨401, "Unauthorized", "User must authenticate before making a request."⟩

/-- Predefined `Forbidden` result (`results.go`). -/
def Forbidden : Result := ⟨403, "Forbidden", "Policy does not allow current user to do this operation."⟩

/-- Predefined `NotFound` result (`results.go`). -/
def NotFound : Result := ⟨404, "Not Found", "The requested resource could not be found."⟩

/-- Predefined `MethodNotAllowed` result (`results.go`). -/
def MethodNotAllowed : Result := ⟨405, "Method Not Allowed", "Method is not valid for this endpoint."⟩

/-- Predefined `Conflict` result (`results.go`). -/
def Conflict : Result := ⟨409, "Conflict", "A POST or PATCH operation failed."⟩

/-- Predefined `RequestEntityTooLarge` result (`results.go`). -/
def RequestEntityTooLarge : Result := ⟨413, "Request Entity Too Large", "The request is larger than the server is willing or able to process."⟩

/-- Predefined `UnsupportedMediaType` result (`results.go`). -/
def UnsupportedMediaType : Result := ⟨415, "Unsupported Media Type", "The request entity has a media type which the server or resource does not support."⟩

/-- Predefined `ServiceUnavailable` result (`results.go`). -/
def ServiceUnavailable : Result := ⟨503, "Service Unavailable", "Service is not available."⟩

/-- The zero-valued `Result` with the "Unknown error." description returned by
the final `return` of `NewResult` for unmapped status codes. -/
def UnknownError : Result := ⟨0, "", "Unknown error."⟩

/-- Model of `NewResult` (`results.go`): the `switch res.StatusCode` mapping
from a response status code to a predefined `Result` value. -/
def NewResult (code : Nat) : Result :=
  if code = 200 then Success
  else if code = 201 then Created
  else if code = 204 then NoContent
  else if code = 400 then BadRequest
  else if code = 401 then Unauthorized
  else if code = 403 then Forbidden
  else if code = 404 then NotFound
  else if code = 405 then MethodNotAllowed
  else if code = 409 then Conflict
  else if code = 413 then RequestEntityTooLarge
  else if code = 415 then UnsupportedMediaType
  else if code = 503 then ServiceUnavailable
  else UnknownError

/-- The status codes explicitly handled by the `switch` in `NewResult`. -/
def knownStatusCodes : List Nat :=
  [200, 201, 204, 400, 401, 403, 404, 405, 409, 413, 415, 503]

theorem newResult_code_of_not_known (c : Nat) (hc : c ∉ knownStatusCodes) :
    NewResult c = UnknownError := by
  simp only [knownStatusCodes, List.mem_cons, List.not_mem_nil, or_false] at hc
  push_neg at hc
  obtain ⟨h1, h2, h3, h4, h5, h6, h7, h8, h9, h10, h11, h12⟩ := hc
  simp [NewResult, h1, h2, h3, h4, h5, h6, h7, h8, h9, h10, h11, h12]

/-- C3: `NewResult` maps each of the twelve handled status codes to the
predefined `Result` value whose `Code` field equals that status code, and
every other status code to the single "Unknown error." `Result`. -/
theorem claim_C3_new_result_status_map :
    (NewResult 200 = Success ∧ NewResult 201 = Created ∧ NewResult 204 = NoContent ∧
     NewResult 400 = BadRequest ∧ NewResult 401 = Unauthorized ∧
     NewResult 403 = Forbidden ∧ NewResult 404 = NotFound ∧
     NewResult 405 = MethodNotAllowed ∧ NewResult 409 = Conflict ∧
     NewResult 413 = RequestEntityTooLarge ∧ NewResult 415 = UnsupportedMediaType ∧
     NewResult 503 = ServiceUnavailable) ∧
    (∀ c ∈ knownStatusCodes, (NewResult c).Code = c) ∧
    (∀ c, c ∉ knownStatusCodes → NewResult c = UnknownError) := by
  refine ⟨by decide, ?_, newResult_code_of_not_known⟩
  intro c hc
  fin_cases hc <;> decide

/-- Witness for C3: the mapping evaluated at the concrete status codes 404
(handled) and 202 (unhandled). -/
theorem claim_C3_new_result_status_map_witness :
    (NewResult 404).Code = 404 ∧ NewResult 202 = UnknownError :=
  ⟨claim_C3_new_result_status_map.2.1 404 (by decide),
   claim_C3_new_result_status_map.2.2 202 (by decide)⟩

/-! ## `identity_v3_token.go` — `CheckToken` and `DeleteToken`

The generic `Invoke` is modelled as consuming exactly one response from a
list of pending server response status codes; the remaining list therefore
counts how many invocations a method performed. -/

/-- The `CheckTokenOpts` struct of `identity_v3_token.go`. -/
structure CheckTokenOpts where
  AllowExpired : Bool
  SubjectToken : String

/-- The `DeleteTokenOpts` struct of `identity_v3_token.go`. -/
structure DeleteTokenOpts where
  SubjectToken : String

/-- One call of the generic `Invoke` against the server model: consume the
next pending response and map its status code through `NewResult`; `none`
models a transport failure (no server response at all). -/
def invokeOnce (responses : List Nat) : Option (Result × List Nat) :=
  match responses with
  | [] => none
  | c :: rest => some (NewResult c, rest)

/-- Model of `IdentityV3API.CheckToken` (`identity_v3_token.go`): one call to
`Invoke`, then `true` when `result.Code` is 200 or 204 and `false` otherwise. -/
def CheckToken (_opts : CheckTokenOpts) (responses : List Nat) :
    Option ((Bool × Result) × List Nat) :=
  match invokeOnce responses with
  | none => none
  | some (result, rest) =>
    if result.Code = 200 ∨ result.Code = 204 then some ((true, result), rest)
    else some ((false, result), rest)

/-- Model of `IdentityV3API.DeleteToken` (`identity_v3_token.go`): one call to
`Invoke`, then `true` when `result.Code` is 200 or 204 and `false` otherwise. -/
def DeleteToken (_opts : DeleteTokenOpts) (responses : List Nat) :
    Option ((Bool × Result) × List Nat) :=
  match invokeOnce responses with
  | none => none
  | some (result, rest) =>
    if result.Code = 200 ∨ result.Code = 204 then some ((true, result), rest)
    else some ((false, result), rest)

theorem newResult_code_200_204 (c : Nat) :
    ((NewResult c).Code = 200 ∨ (NewResult c).Code = 204) ↔ (c = 200 ∨ c = 204) := by
  by_cases hc : c ∈ knownStatusCodes
  · fin_cases hc <;> decide
  · rw [newResult_code_of_not_known c hc]
    constructor
    · intro h; rcases h with h | h <;> simp [UnknownError] at h
    · intro h; exfalso; apply hc; rcases h with h | h <;> simp [knownStatusCodes, h]

/-- C2: for every server response with status code `c`, `CheckToken` returns
`true` exactly when `c` is 200 or 204 (and `false` otherwise), `DeleteToken`
does the same, and each consumes exactly one pending response, i.e. performs
exactly one invocation of the generic `Invoke` (no retry). -/
theorem claim_C2_check_delete_token_status (copts : CheckTokenOpts)
    (dopts : DeleteTokenOpts) (c : Nat) (rest : List Nat) :
    CheckToken copts (c :: rest) = some ((decide (c = 200 ∨ c = 204), NewResult c), rest) ∧
    DeleteToken dopts (c :: rest) = some ((decide (c = 200 ∨ c = 204), NewResult c), rest) := by
  by_cases hcode : (NewResult c).Code = 200 ∨ (NewResult c).Code = 204
  · have hc : c = 200 ∨ c = 204 := (newResult_code_200_204 c).mp hcode
    constructor <;> simp [CheckToken, DeleteToken, invokeOnce, hcode, hc]
  · have hc : ¬(c = 200 ∨ c = 204) := fun h => hcode ((newResult_code_200_204 c).mpr h)
    constructor <;> simp [CheckToken, DeleteToken, invokeOnce, hcode, hc]

/-! ## `api.go` — `PrepareRequest` and the authenticated `Invoke` -/

/-- The `Token` struct of `types.go` / `identity_v3_types.go`, restricted to
the fields the claims touch: the token value (set from the `X-Subject-Token`
header) and the expiry timestamp string. -/
structure Token where
  Value : Option String
  ExpiresAt : Option String
deriving DecidableEq

/-- A prepared HTTP request: the list of headers the builder has added, in
the order the source adds them. -/
structure Request where
  headers : List (String × String)
deriving DecidableEq

/-- Model of `API.PrepareRequest` (`api.go`): when `authenticated` is true and
the authenticator's token or its `Value` is `nil`, fail with an error; when a
value is available, add the `X-Auth-Token` header before the input-derived
headers; the reflection-driven processing of the input struct is abstracted
as the header list `inputHeaders` it contributes. -/
def PrepareRequest (authenticated : Bool) (token : Option Token)
    (inputHeaders : List (String × String)) : Except String Request :=
  if authenticated then
    match token with
    | none => .error "no valid token for authenticated call"
    | some t =>
      match t.Value with
      | none => .error "no valid token for authenticated call"
      | some v => .ok ⟨("X-Auth-Token", v) :: inputHeaders⟩
  else .ok ⟨inputHeaders⟩

/-- Model of `API.Invoke` (`api.go`): prepare the request; on a preparation
error return it at once (nothing is sent, so no pending server response is
consumed); otherwise send it and map the response through `NewResult`. -/
def InvokeAPI (authenticated : Bool) (token : Option Token)
    (inputHeaders : List (String × String)) (responses : List Nat) :
    Except String (Result × List Nat) :=
  match PrepareRequest authenticated token inputHeaders with
  | .error e => .error e
  | .ok _ =>
    match invokeOnce responses with
    | none => .error "error sending request"
    | some (result, rest) => .ok (result, rest)

/-- C4: with `authenticated = true` and a token whose `Value` is non-nil, the
prepared request carries that value in the `X-Auth-Token` header; with no
token, or a token whose `Value` is nil, `PrepareRequest` returns an error and
`Invoke` propagates it without sending anything (the pending server responses
are untouched, whatever they are). -/
theorem claim_C4_auth_token_header (v : String) (e : Option String)
    (hdrs : List (String × String)) (responses : List Nat) :
    (PrepareRequest true (some ⟨some v, e⟩) hdrs = .ok ⟨("X-Auth-Token", v) :: hdrs⟩ ∧
     ("X-Auth-Token", v) ∈ (("X-Auth-Token", v) :: hdrs)) ∧
    (PrepareRequest true none hdrs = .error "no valid token for authenticated call" ∧
     PrepareRequest true (some ⟨none, e⟩) hdrs = .error "no valid token for authenticated call" ∧
     InvokeAPI true none hdrs responses = .error "no valid token for authenticated call" ∧
     InvokeAPI true (some ⟨none, e⟩) hdrs responses = .error "no valid token for authenticated call") := by
  refine ⟨⟨rfl, List.mem_cons_self _ _⟩, rfl, rfl, rfl, rfl⟩

/-! ## `identity_v3_token.go` — scope construction (`initCreateTokenOptionsScope`) -/

/-- The `Domain` struct of `types.go`. -/
structure Domain where
  ID : Option String
  Name : Option String
deriving DecidableEq

/-- The `Project` struct of `types.go`. -/
structure Project where
  ID : Option String
  Name : Option String
  DomainRef : Option Domain
deriving DecidableEq

/-- The `Scope` struct of `types.go`; the source comment on the `Domain`
field reads "either one or the other: if both, BadRequest!". -/
structure Scope where
  ProjectRef : Option Project
  DomainRef : Option Domain
deriving DecidableEq

/-- The values that `initCreateTokenOptionsScope` can pass back through its
`interface{}` return type.  Go's `interface{}` could equally carry an `error`
value, so the embedding keeps an explicit `errVal` alternative; claim C5 is
that the function never produces it. -/
inductive ScopeResult where
  | scopeVal (s : Scope)
  | strVal (s : String)
  | errVal (msg : String)
  | nilVal
deriving DecidableEq

/-- The `CreateTokenOptions` struct of `identity_v3_token.go` (the common,
embedded part of the three `CreateTokenBy*Options` structs). -/
structure CreateTokenOptions where
  NoCatalog : Bool
  Authenticated : Bool
  ScopeProjectID : Option String
  ScopeProjectName : Option String
  ScopeDomainID : Option String
  ScopeDomainName : Option String
  UnscopedToken : Option Bool
deriving DecidableEq

/-- Model of the recurring Go test `s != nil && len(strings.TrimSpace(*s)) > 0`. -/
def present (s : Option String) : Bool :=
  match s with
  | none => false
  | some v => (trimSpace v).length > 0

/-- Model of `initCreateTokenOptionsScope` (`identity_v3_token.go`): project
ID wins, then project name (with domain ID or domain name attached), then
domain ID, then domain name, then the `"unscoped"` marker string, then `nil`.
No branch returns an error value. -/
def initCreateTokenOptionsScope (opts : CreateTokenOptions) : ScopeResult :=
  if present opts.ScopeProjectID then
    .scopeVal ⟨some ⟨opts.ScopeProjectID, none, none⟩, none⟩
  else if present opts.ScopeProjectName then
    .scopeVal ⟨some ⟨none, opts.ScopeProjectName,
      some (if present opts.ScopeDomainID then ⟨opts.ScopeDomainID, none⟩
            else ⟨none, opts.ScopeDomainName⟩)⟩, none⟩
  else if present opts.ScopeDomainID then
    .scopeVal ⟨none, some ⟨opts.ScopeDomainID, none⟩⟩
  else if present opts.ScopeDomainName then
    .scopeVal ⟨none, some ⟨none, opts.ScopeDomainName⟩⟩
  else if opts.UnscopedToken.getD false then
    .strVal "unscoped"
  else
    .nilVal

/-- C5: scope construction never signals an error: for every input — in
particular inputs that set both a project scope field and a domain scope
field — `initCreateTokenOptionsScope` returns a plain value, never an error
value, and an input with both project and domain scope set is accepted as a
project scope without any validation of the "Project XOR Domain" rule. -/
theorem claim_C5_no_scope_validation (opts : CreateTokenOptions) :
    (∀ msg, initCreateTokenOptionsScope opts ≠ .errVal msg) ∧
    ((present opts.ScopeProjectID || present opts.ScopeProjectName) = true →
     (present opts.ScopeDomainID || present opts.ScopeDomainName) = true →
     ∃ s, initCreateTokenOptionsScope opts = .scopeVal s ∧ s.ProjectRef.isSome = true) := by
  constructor
  · intro msg
    unfold initCreateTokenOptionsScope
    split_ifs <;> simp
  · intro hp _hd
    cases hor : present opts.ScopeProjectID with
    | true =>
      exact ⟨⟨some ⟨opts.ScopeProjectID, none, none⟩, none⟩,
        by simp [initCreateTokenOptionsScope, hor], rfl⟩
    | false =>
      have h2 : present opts.ScopeProjectName = true := by
        rw [hor] at hp; simpa using hp
      exact ⟨⟨some ⟨none, opts.ScopeProjectName,
          some (if present opts.ScopeDomainID then ⟨opts.ScopeDomainID, none⟩
                else ⟨none, opts.ScopeDomainName⟩)⟩, none⟩,
        by simp [initCreateTokenOptionsScope, hor, h2], rfl⟩

/-- Witness for C5: an input with both `ScopeProjectName` and
`ScopeDomainName` set is accepted, with no error value produced. -/
theorem claim_C5_no_scope_validation_witness :
    initCreateTokenOptionsScope ⟨false, false, none, some "demo", none, some "Default", none⟩ ≠ .errVal "x" ∧
    ∃ s, initCreateTokenOptionsScope ⟨false, false, none, some "demo", none, some "Default", none⟩ =
      .scopeVal s ∧ s.ProjectRef.isSome = true :=
  ⟨(claim_C5_no_scope_validation _).1 "x",
   (claim_C5_no_scope_validation _).2 (by decide) (by decide)⟩

/-! ## `client.go` and `identity_v3_token.go` — environment-driven configuration -/

/-- The slice of the `Client` state that claim C6 talks about: the catalog
URL the requestor is based on. -/
structure ClientModel where
  catalogURL : String
deriving DecidableEq

/-- Model of `NewClient` (`client.go`): fall back to the `OS_AUTH_URL`
environment variable when the explicit catalog URL is blank, and fail when
the resulting URL is the empty string.  The environment is a total function
from variable names to values, `""` meaning unset, exactly as `os.Getenv`. -/
def NewClient (catalogURL : String) (env : String → String) : Except String ClientModel :=
  let url := if (trimSpace catalogURL).length = 0 then env "OS_AUTH_URL" else catalogURL
  if url = "" then .error "no valid catalog URL"
  else .ok ⟨url⟩

/-- The `CreateTokenByPasswordOptions` struct of `identity_v3_token.go`,
with the embedded `CreateTokenOptions` as in the Go source. -/
structure CreateTokenByPasswordOptions extends CreateTokenOptions where
  UserID : Option String
  UserName : Option String
  UserDomainID : Option String
  UserDomainName : Option String
  UserPassword : Option String
deriving DecidableEq

/-- Model of the options built by `IdentityV3API.CreateTokenFromEnv`
(`identity_v3_token.go`): a password credential from `OS_USERNAME`,
`OS_PASSWORD` and `OS_USER_DOMAIN_NAME`; scoped to `OS_PROJECT_NAME` /
`OS_PROJECT_DOMAIN_NAME` when both are non-empty, unscoped otherwise. -/
def CreateTokenFromEnvOpts (env : String → String) : CreateTokenByPasswordOptions :=
  let base : CreateTokenByPasswordOptions :=
    { NoCatalog := false, Authenticated := false,
      ScopeProjectID := none, ScopeProjectName := none,
      ScopeDomainID := none, ScopeDomainName := none, UnscopedToken := none,
      UserID := none,
      UserName := some (env "OS_USERNAME"),
      UserDomainID := none,
      UserDomainName := some (env "OS_USER_DOMAIN_NAME"),
      UserPassword := some (env "OS_PASSWORD") }
  if env "OS_PROJECT_NAME" ≠ "" ∧ env "OS_PROJECT_DOMAIN_NAME" ≠ "" then
    { base with
      ScopeProjectName := some (env "OS_PROJECT_NAME"),
      ScopeDomainName := some (env "OS_PROJECT_DOMAIN_NAME") }
  else
    { base with UnscopedToken := some true }

/-- C6: `NewClient` falls back to `OS_AUTH_URL` when the explicit catalog URL
is empty and errors when both are empty; `CreateTokenFromEnv` builds a
password credential from `OS_USERNAME`, `OS_PASSWORD`, `OS_USER_DOMAIN_NAME`,
project-scoped from `OS_PROJECT_NAME` / `OS_PROJECT_DOMAIN_NAME` exactly when
both are non-empty and unscoped otherwise. -/
theorem claim_C6_env_configuration (env : String → String) :
    (env "OS_AUTH_URL" ≠ "" → NewClient "" env = .ok ⟨env "OS_AUTH_URL"⟩) ∧
    (env "OS_AUTH_URL" = "" → NewClient "" env = .error "no valid catalog URL") ∧
    ((CreateTokenFromEnvOpts env).UserName = some (env "OS_USERNAME") ∧
     (CreateTokenFromEnvOpts env).UserPassword = some (env "OS_PASSWORD") ∧
     (CreateTokenFromEnvOpts env).UserDomainName = some (env "OS_USER_DOMAIN_NAME")) ∧
    (env "OS_PROJECT_NAME" ≠ "" → env "OS_PROJECT_DOMAIN_NAME" ≠ "" →
     (CreateTokenFromEnvOpts env).ScopeProjectName = some (env "OS_PROJECT_NAME") ∧
     (CreateTokenFromEnvOpts env).ScopeDomainName = some (env "OS_PROJECT_DOMAIN_NAME") ∧
     (CreateTokenFromEnvOpts env).UnscopedToken = none) ∧
    (¬(env "OS_PROJECT_NAME" ≠ "" ∧ env "OS_PROJECT_DOMAIN_NAME" ≠ "") →
     (CreateTokenFromEnvOpts env).UnscopedToken = some true ∧
     (CreateTokenFromEnvOpts env).ScopeProjectName = none ∧
     (CreateTokenFromEnvOpts env).ScopeDomainName = none) := by
  have hblank : (trimSpace "").length = 0 := rfl
  refine ⟨?_, ?_, ?_, ?_, ?_⟩
  · intro h; simp [NewClient, hblank, h]
  · intro h; simp [NewClient, hblank, h]
  · cases hc : decide (env "OS_PROJECT_NAME" ≠ "" ∧ env "OS_PROJECT_DOMAIN_NAME" ≠ "") with
    | true =>
      have := of_decide_eq_true hc
      simp [CreateTokenFromEnvOpts, this]
    | false =>
      have := of_decide_eq_false hc
      simp [CreateTokenFromEnvOpts, this]
  · intro h1 h2
    simp [CreateTokenFromEnvOpts, h1, h2]
  · intro h
    simp [CreateTokenFromEnvOpts, h]

/-- Environment used by the C6 witness. -/
def envC6 : String → String := fun k =>
  if k = "OS_AUTH_URL" then "http://keystone:5000/"
  else if k = "OS_PROJECT_NAME" then "demo"
  else if k = "OS_PROJECT_DOMAIN_NAME" then "Default"
  else ""

/-- Witness for C6: the configuration logic evaluated on a concrete
environment. -/
theorem claim_C6_env_configuration_witness :
    NewClient "" envC6 = .ok ⟨"http://keystone:5000/"⟩ ∧
    (CreateTokenFromEnvOpts envC6).ScopeProjectName = some "demo" :=
  ⟨(claim_C6_env_configuration envC6).1 (by decide),
   ((claim_C6_env_configuration envC6).2.2.2.1 (by decide) (by decide)).1⟩

/-! ## `identity_old.go` — `NormaliseURL` -/

/-- Model of `NormaliseURL` (`identity_old.go`): return the URL itself when it
already ends with `"/"`, and the URL with `"/"` appended otherwise. -/
def NormaliseURL (url : String) : String :=
  if hasSlashSuffix url then url else url ++ "/"

theorem data_append (a b : String) : (a ++ b).data = a.data ++ b.data := rfl

theorem hasSlashSuffix_append_slash (url : String) :
    hasSlashSuffix (url ++ "/") = true := by
  have h : (url ++ "/").data = (url.data).concat '/' := by
    rw [data_append]; simp [List.concat_eq_append]
  simp [hasSlashSuffix, h, List.getLast?_concat]

/-- C10: `NormaliseURL` always returns a string ending in `"/"`; it returns
the input unchanged when the input already ends in `"/"` and the input with
`"/"` appended otherwise; and it is idempotent. -/
theorem claim_C10_normalise_url (url : String) :
    hasSlashSuffix (NormaliseURL url) = true ∧
    (hasSlashSuffix url = true → NormaliseURL url = url) ∧
    (hasSlashSuffix url = false → NormaliseURL url = url ++ "/") ∧
    NormaliseURL (NormaliseURL url) = NormaliseURL url := by
  cases h : hasSlashSuffix url with
  | true =>
    refine ⟨?_, ?_, ?_, ?_⟩
    · simp [NormaliseURL, h]
    · intro _; simp [NormaliseURL, h]
    · intro hf; simp [h] at hf
    · simp [NormaliseURL, h]
  | false =>
    have hnorm : NormaliseURL url = url ++ "/" := by simp [NormaliseURL, h]
    have hsuf := hasSlashSuffix_append_slash url
    refine ⟨?_, ?_, ?_, ?_⟩
    · rw [hnorm]; exact hsuf
    · intro ht; simp [h] at ht
    · intro _; exact hnorm
    · rw [hnorm]; simp [NormaliseURL, hsuf]

/-- Witness for C10: `NormaliseURL` evaluated on a URL without and a URL with
a trailing slash. -/
theorem claim_C10_normalise_url_witness :
    NormaliseURL "http://a" = "http://a" ++ "/" ∧ NormaliseURL "b/" = "b/" :=
  ⟨(claim_C10_normalise_url "http://a").2.2.1 (by decide),
   (claim_C10_normalise_url "b/").2.1 (by decide)⟩

/-! ## `authenticator.go` — the token-refresh timer armed by `Login` -/

/-- The refresh action computed by the tail of `Authenticator.Login`: the
duration (in seconds) the `time.Timer` is armed with, the `when` value the
code computes and logs as the announced firing delay, and whether a goroutine
is spawned that waits on the timer and re-invokes `Login`. -/
structure RefreshPlan where
  armedSeconds : Option Int
  loggedRemaining : Option Int
  reloginOnFire : Bool
deriving DecidableEq

/-- Model of the timer-arming tail of `Authenticator.Login`
(`authenticator.go`, last revision, the code under `// TODO: re-enable`):
when the stored token has an `ExpiresAt` string that parses, compute
`when := expiryDate.Sub(time.Now().Add(5 * time.Second))`, log "timer will
fire in `when`", then arm `time.NewTimer(5 * time.Second)` — a constant
five-second duration — and spawn a goroutine that re-invokes `Login` when the
timer fires.  `parse` stands for `time.Parse(ISO8601, ·)` and `now` for
`time.Now()`, both in seconds on a common clock. -/
def loginRefreshPlan (expiresAt : Option String) (parse : String → Option Int)
    (now : Int) : RefreshPlan :=
  match expiresAt with
  | none => ⟨none, none, false⟩
  | some s =>
    match parse s with
    | none => ⟨none, none, false⟩
    | some expiry => ⟨some 5, some (expiry - (now + 5)), true⟩

/-- Model of the timer-arming tail of the `Authenticator.Login` revision kept
in `types.go` (lines 397–417): `when := expiryDate.Sub(time.Now().Add(30 *
time.Second))` and the timer is armed with the computed `when` itself
(`time.NewTimer(when)`), with a goroutine re-invoking `Login`. -/
def loginRefreshPlanTypesRev (expiresAt : Option String) (parse : String → Option Int)
    (now : Int) : RefreshPlan :=
  match expiresAt with
  | none => ⟨none, none, false⟩
  | some s =>
    match parse s with
    | none => ⟨none, none, false⟩
    | some expiry => ⟨some (expiry - (now + 30)), some (expiry - (now + 30)), true⟩

/-- C1 (evaluation at the failing input): for a token expiring 3600 seconds
from now, the cited `Login` arms the timer with a constant 5 seconds — not
the remaining-time-minus-margin value 3595 it computes and logs — although a
goroutine re-invoking `Login` is indeed attached; the `types.go` revision of
`Login` arms the timer with the computed remaining-minus-30-seconds value,
as the claim describes. -/
theorem claim_C1_timer_armed_constant :
    loginRefreshPlan (some "2018-01-01T01:00:00.000000Z") (fun _ => some 3600) 0 =
      ⟨some 5, some 3595, true⟩ ∧
    (loginRefreshPlan (some "2018-01-01T01:00:00.000000Z") (fun _ => some 3600) 0).armedSeconds ≠
      (loginRefreshPlan (some "2018-01-01T01:00:00.000000Z") (fun _ => some 3600) 0).loggedRemaining ∧
    loginRefreshPlanTypesRev (some "2018-01-01T01:00:00.000000Z") (fun _ => some 3600) 0 =
      ⟨some 3570, some 3570, true⟩ := by
  refine ⟨rfl, ?_, rfl⟩
  intro h
  simp [loginRefreshPlan] at h

/-! ## `authenticator.go` — lock discipline of the token accesses

Each `Authenticator` operation is transliterated into the sequence of
lock/unlock events and token-pointer accesses it performs, in source order;
`guarded` checks that every token read happens while a read or write lock is
held and every token write while the write lock is held.  The model counts
lock acquisitions per operation and does not model blocking (notably,
`Logout` calls `GetToken`, which acquires the read lock, while already
holding the write lock — a non-reentrancy hazard of `sync.RWMutex` that is a
liveness matter, outside this claim). -/

/-- Lock and token-pointer access events of an `Authenticator` operation. -/
inductive LockEvent where
  | lockW
  | unlockW
  | lockR
  | unlockR
  | readTok
  | writeTok
deriving DecidableEq, Repr

/-- Check a trace starting with `w` write locks and `r` read locks held:
every `readTok` needs some lock held, every `writeTok` needs the write
lock held. -/
def guardedFrom : Nat → Nat → List LockEvent → Bool
  | _, _, [] => true
  | w, r, .lockW :: es => guardedFrom (w + 1) r es
  | w, r, .unlockW :: es => guardedFrom (w - 1) r es
  | w, r, .lockR :: es => guardedFrom w (r + 1) es
  | w, r, .unlockR :: es => guardedFrom w (r - 1) es
  | w, r, .readTok :: es => (decide (0 < w) || decide (0 < r)) && guardedFrom w r es
  | w, r, .writeTok :: es => decide (0 < w) && guardedFrom w r es

/-- Check a trace with no lock held at the start. -/
def guarded (t : List LockEvent) : Bool := guardedFrom 0 0 t

/-- Trace of `Authenticator.GetToken` (`authenticator.go`): `RLock`, read
`auth.token`, `RUnlock` (deferred). -/
def getTokenTrace : List LockEvent := [.lockR, .readTok, .unlockR]

/-- Trace of `Authenticator.GetCatalog` (`authenticator.go`): `RLock`, read
`auth.token` in the nil test and again for `.Catalog`, `RUnlock` (deferred). -/
def getCatalogTrace : List LockEvent := [.lockR, .readTok, .readTok, .unlockR]

/-- Trace of the token handling of `Authenticator.Login` (`authenticator.go`):
`Lock`, store `auth.token = token`, read `auth.token.ExpiresAt` in the nil
test and — when an expiry is present — again for the parse, `Unlock`
(deferred).  The timer field accesses and the spawned goroutine (whose body
only re-runs `Login`) touch no token state of their own. -/
def loginTrace (hasExpiry : Bool) : List LockEvent :=
  [.lockW, .writeTok, .readTok] ++ (if hasExpiry then [.readTok] else []) ++ [.unlockW]

/-- Trace of `Authenticator.Logout` (`authenticator.go`): a `GetToken` call;
then, when a token with a value is present, `Lock`, two further `GetToken`
calls (the `DeleteToken` guard and argument), the read of `auth.token` in
`auth.token.Value = nil`, the write `auth.token = nil`, and the deferred
`Unlock`. -/
def logoutTrace (tokenPresent valuePresent : Bool) : List LockEvent :=
  getTokenTrace ++
  (if tokenPresent && valuePresent then
    [.lockW] ++ getTokenTrace ++ getTokenTrace ++ [.readTok, .writeTok, .unlockW]
   else [])

/-- C7: in every `Authenticator` operation, every access to the `token`
pointer happens while a lock is held — reads under a read (or write) lock,
writes under the write lock — so no operation touches the token field
outside the mutex. -/
theorem claim_C7_lock_discipline :
    (∀ hasExpiry : Bool, guarded (loginTrace hasExpiry) = true) ∧
    guarded getTokenTrace = true ∧
    guarded getCatalogTrace = true ∧
    (∀ tokenPresent valuePresent : Bool,
      guarded (logoutTrace tokenPresent valuePresent) = true) := by
  decide

/-! ## `identity_v3_token.go` (second revision) — the `Error` type and `Where`

The Go `Info` field is a reference to a mutable `map[string]interface{}`;
the embedding makes the heap explicit: a heap is a list of maps (lookup
functions), an `Error` holds an optional index into it, and `Where`
allocates a fresh map at the end of the heap, copies every entry of the
receiver's map into it (same lookup function) and then stores `info` at
`key`. -/

/-- Values stored in the `map[string]interface{}` context of an `Error`
(the source stores status-code integers and strings). -/
inductive GoAny where
  | intV (n : Int)
  | strV (s : String)
deriving DecidableEq

/-- A Go `map[string]interface{}` modelled by its lookup function. -/
def InfoMap : Type := String → Option GoAny

/-- The `Error` struct of the second revision of `identity_v3_token.go`:
the wrapped error text and the reference to the `Info` map (`none` models a
nil map). -/
structure ErrorRef where
  Err : String
  InfoRef : Option Nat

/-- The empty map, also the behaviour of lookups in a nil Go map. -/
def emptyInfo : InfoMap := fun _ => none

/-- Look a key up in an error's `Info` map through the heap. -/
def lookupInfo (h : List InfoMap) (e : ErrorRef) (k : String) : Option GoAny :=
  match e.InfoRef with
  | none => none
  | some r => (h.getD r emptyInfo) k

/-- Model of `Error.Where` (`identity_v3_token.go`): build `ne` with the same
`Err`, allocate `ne.Info = make(map[string]interface{})` (fresh cell at the
end of the heap), copy every entry of `e.Info` into it, then set
`ne.Info[key] = info`.  Returns the new heap and the new error. -/
def Where (h : List InfoMap) (e : ErrorRef) (key : String) (info : GoAny) :
    List InfoMap × ErrorRef :=
  let newMap : InfoMap := fun k => if k = key then some info else lookupInfo h e k
  (h ++ [newMap], ⟨e.Err, some h.length⟩)

theorem getD_append_self (l : List InfoMap) (m dflt : InfoMap) :
    (l ++ [m]).getD l.length dflt = m := by
  induction l with
  | nil => rfl
  | cons a t ih =>
    simp only [List.cons_append, List.length_cons, List.getD_cons_succ]
    exact ih

theorem getD_append_lt (l l' : List InfoMap) (r : Nat) (dflt : InfoMap)
    (hr : r < l.length) : (l ++ l').getD r dflt = l.getD r dflt := by
  induction l generalizing r with
  | nil => exact absurd hr (by simp)
  | cons a t ih =>
    cases r with
    | zero => rfl
    | succ n =>
      have hn : n < t.length := by simpa using hr
      simpa using ih n hn

/-- C8 counterexample: for an `Error` whose `Info` already binds `"code"` to
`1`, `Where "code" 2` yields an `Info` map that binds `"code"` to `2` and so
does not contain the original entry `"code" -> 1` — the returned map is not
"every entry of `e.Info` plus the new binding" but the update of `e.Info`
at `key`. -/
theorem claim_C8_where_overwrites_counterexample :
    lookupInfo [fun k => if k = "code" then some (.intV 1) else none]
      ⟨"boom", some 0⟩ "code" = some (.intV 1) ∧
    lookupInfo (Where [fun k => if k = "code" then some (.intV 1) else none]
        ⟨"boom", some 0⟩ "code" (.intV 2)).1
      (Where [fun k => if k = "code" then some (.intV 1) else none]
        ⟨"boom", some 0⟩ "code" (.intV 2)).2 "code" = some (.intV 2) ∧
    lookupInfo (Where [fun k => if k = "code" then some (.intV 1) else none]
        ⟨"boom", some 0⟩ "code" (.intV 2)).1
      (Where [fun k => if k = "code" then some (.intV 1) else none]
        ⟨"boom", some 0⟩ "code" (.intV 2)).2 "code" ≠ some (.intV 1) := by
  refine ⟨rfl, rfl, ?_⟩
  decide

/-- C8 (amended): `Where` returns a new `Error` with the same `Err` whose
`Info` map binds `key` to `info` and every other key to its binding in
`e.Info`; the receiver is unchanged — every existing heap cell, in
particular `e`'s own `Info` map, is untouched, since the new bindings live
in a freshly allocated map. -/
theorem claim_C8_where_is_pure_update (h : List InfoMap) (e : ErrorRef)
    (key : String) (info : GoAny) :
    (Where h e key info).2.Err = e.Err ∧
    (∀ k, lookupInfo (Where h e key info).1 (Where h e key info).2 k =
      if k = key then some info else lookupInfo h e k) ∧
    (∀ r dflt, r < h.length → (Where h e key info).1.getD r dflt = h.getD r dflt) ∧
    (∀ r k, e.InfoRef = some r → r < h.length →
      lookupInfo (Where h e key info).1 e k = lookupInfo h e k) := by
  refine ⟨rfl, ?_, ?_, ?_⟩
  · intro k
    show ((h ++ [_]).getD h.length emptyInfo) k = _
    rw [getD_append_self]
  · intro r dflt hr
    exact getD_append_lt h _ r dflt hr
  · intro r k href hr
    simp only [Where, lookupInfo, href]
    rw [getD_append_lt h _ r emptyInfo hr]

/-- Witness for C8 (amended): the update behaviour at a concrete heap, error
and key, with the frame conditions discharged at cell 0. -/
theorem claim_C8_where_is_pure_update_witness :
    lookupInfo (Where [fun k => if k = "code" then some (.intV 1) else none]
        ⟨"boom", some 0⟩ "other" (.strV "v")).1
      (Where [fun k => if k = "code" then some (.intV 1) else none]
        ⟨"boom", some 0⟩ "other" (.strV "v")).2 "code" =
      some (.intV 1) ∧
    (Where [fun k => if k = "code" then some (.intV 1) else none]
        ⟨"boom", some 0⟩ "other" (.strV "v")).1.getD 0 emptyInfo "code" =
      some (.intV 1) := by
  constructor
  · rw [(claim_C8_where_is_pure_update [fun k => if k = "code" then some (.intV 1) else none]
      ⟨"boom", some 0⟩ "other" (.strV "v")).2.1 "code"]
    rfl
  · rw [(claim_C8_where_is_pure_update [fun k => if k = "code" then some (.intV 1) else none]
      ⟨"boom", some 0⟩ "other" (.strV "v")).2.2.1 0 emptyInfo (by decide)]
    rfl

/-! ## `openstack2` profile revisions — `Profile.GetAllServices` -/

/-- A service type key (`openstack2` package). -/
abbrev ServiceType := String

/-- The `ServicePreferences` struct of the `openstack2` profile revision. -/
structure ServicePreferences where
  Name : Option String
  Region : Option String
  Version : Option String
  APIVersion : Option String
  Interface : Option String
  RequiresProjectID : Bool

/-- The `Profile` struct: the registered services, a Go
`map[ServiceType]*ServicePreferences` modelled as its entry list (the list
order stands for the map's iteration order). -/
structure Profile where
  services : List (ServiceType × ServicePreferences)

/-- The `openstack.Error*` predefined error values the profile code returns. -/
inductive OsError where
  | invalidReference
  | notFound
  | invalidInput
deriving DecidableEq

/-- Model of `Profile.GetAllServices` (second revision in the profile file):
for a nil receiver return `(nil, ErrorInvalidReference)`; otherwise build
`services := make([]ServiceType, len(p.services))` — a slice already holding
`len(p.services)` zero values — and then append every key of the map to it. -/
def GetAllServices (p : Option Profile) : Option (List ServiceType) × Option OsError :=
  match p with
  | none => (none, some .invalidReference)
  | some p =>
    (some (List.replicate p.services.length "" ++ p.services.map Prod.fst), none)

/-- C9: on a nil `Profile`, `GetAllServices` returns a nil slice and
`ErrorInvalidReference`; on a profile with `n` registered services it
returns no error and a slice of length `2 * n` whose first `n` elements are
the zero-valued `ServiceType` (the empty string) and whose last `n` elements
are the registered service keys in iteration order. -/
theorem claim_C9_get_all_services (p : Profile) :
    GetAllServices none = (none, some .invalidReference) ∧
    ∃ l, GetAllServices (some p) = (some l, none) ∧
      l.length = 2 * p.services.length ∧
      l.take p.services.length = List.replicate p.services.length "" ∧
      l.drop p.services.length = p.services.map Prod.fst := by
  refine ⟨rfl, List.replicate p.services.length "" ++ p.services.map Prod.fst,
    rfl, ?_, ?_, ?_⟩
  · simp [List.length_append, List.length_replicate, List.length_map]
    omega
  · exact List.take_left' (List.length_replicate _ _)
  · exact List.drop_left' (List.length_replicate _ _)

end GoOS
